import Mathlib

/-!
Shallow embedding of the map-coordinate projection and artifact-assembly
pipeline of the hdfm repository (`src/map_manager.py`, `src/radar_map.py`,
`src/traffic.py`, `src/utils.py`), together with theorems settling the
specification's claims about it.

Images are modelled symbolically: each PIL operation that produces a new
image becomes a constructor of the `Img` inductive, so that the provenance
of every composed image (which overlay went into it, what was pasted where,
what text was drawn on it) is visible in the term.
-/

namespace Hdfm

/-- Symbolic model of a PIL image.  `file` is `Image.open` on a named file
(with the mode the file decodes to), `new` is `Image.new`, and the other
constructors record the image operations used by the repository:
`convert`, `resize`, `crop`, `Image.alpha_composite`, drawing a text
(`ImageDraw.text`, used for timestamping), and `paste`. -/
inductive Img where
  | file (name : String) (mode : String)
  | new (mode : String) (width height : Nat)
  | convert (i : Img) (mode : String)
  | resize (i : Img) (width height : Nat)
  | crop (i : Img) (box : Int × Int × Int × Int)
  | composite (bottom top : Img)
  | stamped (i : Img) (text : String)
  | paste (base tile : Img) (pos : Nat × Nat)
deriving DecidableEq

/-- The PIL mode of a modelled image.  `convert` sets the mode;
`resize`/`crop`/text-drawing/`paste` keep the mode of the (base) image;
`Image.alpha_composite` yields an RGBA image. -/
def Img.mode : Img → String
  | .file _ m => m
  | .new m _ _ => m
  | .convert _ m => m
  | .resize i _ _ => i.mode
  | .crop i _ => i.mode
  | .composite _ _ => "RGBA"
  | .stamped i _ => i.mode
  | .paste b _ _ => b.mode

/-- Whether `needle` occurs as a sub-image (ingredient) of `i`. -/
def Img.contains (needle : Img) (i : Img) : Bool :=
  decide (i = needle) ||
    match i with
    | .file _ _ => false
    | .new _ _ _ => false
    | .convert j _ => Img.contains needle j
    | .resize j _ _ => Img.contains needle j
    | .crop j _ => Img.contains needle j
    | .composite a b => Img.contains needle a || Img.contains needle b
    | .stamped j _ => Img.contains needle j
    | .paste a b _ => Img.contains needle a || Img.contains needle b

/-- The text drawn on a stamped image, if the outermost operation was a
text draw. -/
def Img.drawnText : Img → Option String
  | .stamped _ t => some t
  | _ => none

/-! ## `src/traffic.py` -/

/-- Whether `c` is one of the digit characters accepted by the tile-coordinate
pattern `_([123])_([123])_`. -/
def isDigit123 (c : Char) : Bool :=
  c = '1' || c = '2' || c = '3'

/-- Numeric value of a digit character. -/
def digitVal (c : Char) : Nat :=
  c.toNat - '0'.toNat

/-- Model of `re.search('_([123])_([123])_', s)`: find the leftmost occurrence of
`_r_c_` with `r, c` in `{1,2,3}` and return the two captured digits
`(r, c)`.  On failure at one start position the scan advances one
character, exactly as the regex engine does. -/
def searchTilePattern : List Char → Option (Nat × Nat)
  | [] => none
  | c :: cs =>
    match c, cs with
    | '_', b :: '_' :: d :: '_' :: _ =>
      if isDigit123 b && isDigit123 d then
        some (digitVal b, digitVal d)
      else
        searchTilePattern cs
    | _, _ => searchTilePattern cs

namespace TrafficTile

/-- Model of `TrafficTile.xy_coordinates`: parse the zero-indexed `(x, y)` slot
coordinates out of the filename; the source raises an exception when the
pattern is absent, modelled by `none`.  The match groups are `(row, col)`
and the result is `(col - 1, row - 1)`. -/
def xy_coordinates (filename : String) : Option (Nat × Nat) :=
  match searchTilePattern filename.toList with
  | none => none
  | some (r, c) => some (c - 1, r - 1)

end TrafficTile

/-- A received traffic tile: filename plus decoded image
(`TrafficTile.load_file` opens the file and converts it to RGBA). -/
structure TrafficTile where
  filename : String
  image : Img
deriving DecidableEq

/-- Model of `TrafficTile.load_file`: decode the image from the file contents and
convert to RGBA. -/
def TrafficTile.load_file (filename : String) (raw : Img) : TrafficTile :=
  ⟨filename, Img.convert raw "RGBA"⟩

/-- State of a `TrafficMapManager`: the 600x600 pasteboard canvas and the
9-slot table of received tiles. -/
structure TrafficMapManager where
  _traffic_map : Img
  _tiles : List (Option TrafficTile)
deriving DecidableEq

namespace TrafficMapManager

/-- Model of `TrafficMapManager.__init__`: blank RGBA canvas, all 9 slots empty. -/
def init : TrafficMapManager :=
  ⟨Img.new "RGBA" 600 600, List.replicate 9 none⟩

/-- Model of `TrafficMapManager._paste_tile`: paste the tile image onto the canvas
at `(x * 200, y * 200)`; `none` when the filename does not parse. -/
def _paste_tile (s : TrafficMapManager) (t : TrafficTile) : Option TrafficMapManager :=
  match TrafficTile.xy_coordinates t.filename with
  | none => none
  | some (x, y) =>
    some { s with _traffic_map := Img.paste s._traffic_map t.image (x * 200, y * 200) }

/-- Model of `TrafficMapManager.add_tile`: record the tile in slot `x + y * 3` of
the tracking table and paste it onto the canvas; `none` models the
exception raised when the filename has no coordinate pattern. -/
def add_tile (s : TrafficMapManager) (t : TrafficTile) : Option TrafficMapManager :=
  match TrafficTile.xy_coordinates t.filename with
  | none => none
  | some (x, y) =>
    _paste_tile { s with _tiles := s._tiles.set (x + y * 3) (some t) } t

/-- The body of the loop of `TrafficMapManager.find_and_add_tiles`: for
each discovered file (name and raw decoded image, in listing order), load
it as a tile, `add_tile` it, then delete the file.  Returns the final
manager state, the names of the files deleted, and whether an exception
propagated (aborting the loop); a file on which `add_tile` raises is not
deleted and the files after it are not processed. -/
def processFiles (s : TrafficMapManager) :
    List (String × Img) → TrafficMapManager × List String × Bool
  | [] => (s, [], false)
  | (name, raw) :: rest =>
    match add_tile s (TrafficTile.load_file name raw) with
    | none => (s, [], true)
    | some s1 =>
      let r := processFiles s1 rest
      (r.1, name :: r.2.1, r.2.2)

/-- Model of `TrafficMapManager.find_and_add_tiles`: returns `some false` when no
files matched the glob, `some true` when all were processed, and `none`
when an exception propagated out of the loop (second component: final
state, third: deleted file names). -/
def find_and_add_tiles (s : TrafficMapManager) (files : List (String × Img)) :
    Option Bool × TrafficMapManager × List String :=
  if files.isEmpty then
    (some false, s, [])
  else
    let r := processFiles s files
    (if r.2.2 then none else some true, r.1, r.2.1)

/-- Number of filled slots in the tracking table. -/
def filledCount (s : TrafficMapManager) : Nat :=
  (s._tiles.filter fun o => o.isSome).length

end TrafficMapManager

/-! ## `src/map_manager.py`: iHeartRadio config parsing -/

/-- A parsed config value: `IHeartRadioConfig._parse_value` returns either a
single (quote-stripped) string or, when the raw value contains `;`, a list
of quote-stripped parts.  `strip_quotes` yields no string (Python `None`)
when the part is not quoted, hence the `Option`s. -/
inductive ConfigValue where
  | str (v : Option String)
  | list (v : List (Option String))
deriving DecidableEq

/-- A character matched by the regex class `\w` (ASCII input). -/
def isWordChar (c : Char) : Bool :=
  c.isAlphanum || c = '_'

/-- Split off the maximal leading run of word characters. -/
def wordRun : List Char → List Char × List Char
  | [] => ([], [])
  | c :: cs =>
    if isWordChar c then
      let r := wordRun cs
      (c :: r.1, r.2)
    else
      ([], c :: cs)

/-- Attempt to match `(\w+)=(.*?)$` at the start of `l`: a nonempty run
of word characters followed by `=`; the groups are the run and the rest
of the line (the lazy `.*?` anchored by `$` takes the whole remainder). -/
def keyValAt (l : List Char) : Option (List Char × List Char) :=
  match wordRun l with
  | ([], _) => none
  | (run, rest) =>
    match rest with
    | '=' :: val => some (run, val)
    | _ => none

/-- Model of `re.search(r'(\w+)=(.*?)$', line)` on a single line: try the match at
each position from the left, as the regex engine does, and return the
groups of the leftmost successful match. -/
def searchKeyVal : List Char → Option (List Char × List Char)
  | [] => none
  | c :: cs =>
    match keyValAt (c :: cs) with
    | some kv => some kv
    | none => searchKeyVal cs

/-- Split a character list on a separator character, keeping empty
parts, as Python `str.split(sep)` does. -/
def splitOnChar (sep : Char) : List Char → List (List Char)
  | [] => [[]]
  | c :: cs =>
    let r := splitOnChar sep cs
    if c = sep then
      [] :: r
    else
      match r with
      | [] => [[c]]
      | h :: t => (c :: h) :: t

/-- Model of `str.splitlines()` for `\n`-separated text: like splitting on `\n`
but without a trailing empty line for a trailing newline. -/
def splitlines (text : String) : List (List Char) :=
  let parts := splitOnChar '\n' text.toList
  if parts.getLast? = some [] then parts.dropLast else parts

namespace IHeartRadioConfig

/-- Model of `IHeartRadioConfig.strip_quotes`: strip one layer of matching double
or single quotes; any other string falls off the end of the function,
i.e. yields Python `None` (here `none`). -/
def strip_quotes (s : String) : Option String :=
  match s.toList with
  | [] => none
  | c :: cs =>
    match (c :: cs).getLast? with
    | none => none
    | some lastc =>
      if (c = '"' && lastc = '"') || (c = '\'' && lastc = '\'') then
        some (String.mk ((c :: cs).drop 1).dropLast)
      else
        none

/-- Model of `IHeartRadioConfig._parse_value`: split on `;` into a list of
quote-stripped parts when a semicolon is present, else a single
quote-stripped value. -/
def _parse_value (value : String) : ConfigValue :=
  if value.toList.contains ';' then
    ConfigValue.list ((splitOnChar ';' value.toList).map fun part => strip_quotes (String.mk part))
  else
    ConfigValue.str (strip_quotes value)

/-- Model of `IHeartRadioConfig.load`: parse each line as `key=value` via the
regex search and collect the entries in order (the Python dict keeps the
last assignment per key, modelled by `lookupLast` below). -/
def load (text : String) : List (String × ConfigValue) :=
  (splitlines text).filterMap fun line =>
    match searchKeyVal line with
    | none => none
    | some (k, v) => some (String.mk k, _parse_value (String.mk v))

end IHeartRadioConfig

/-- Python-dict lookup on the entry list produced by `load`: the last
assignment to a key wins. -/
def lookupLast (entries : List (String × ConfigValue)) (key : String) : Option ConfigValue :=
  (entries.filter fun p => p.1 = key).getLast?.map Prod.snd

/-- Parse a decimal literal (optional sign, digits, optional fractional
part) into an exact rational, modelling Python `float()` on the simple
numeric strings appearing in coordinate configs; `none` when the string
is not of that shape. -/
def parseDecimal (s : String) : Option ℚ :=
  let parse : List Char → Option ℚ := fun l =>
    let ip := l.takeWhile Char.isDigit
    let rest := l.dropWhile Char.isDigit
    match rest with
    | [] =>
      if ip.isEmpty then none
      else some ((ip.foldl (fun n c => n * 10 + digitVal c) 0 : Nat) : ℚ)
    | '.' :: fp =>
      if fp.all Char.isDigit && !(ip.isEmpty && fp.isEmpty) then
        some (((ip.foldl (fun n c => n * 10 + digitVal c) 0 : Nat) : ℚ) +
          ((fp.foldl (fun n c => n * 10 + digitVal c) 0 : Nat) : ℚ) / ((10 : ℚ) ^ fp.length))
      else none
    | _ => none
  match s.toList with
  | '-' :: l => (parse l).map Neg.neg
  | '+' :: l => parse l
  | l => parse l

/-- A geographic bounding box as produced by `Coordinates.parse`:
`((lat_top, lon_left), (lat_bottom, lon_right))`. -/
abbrev Bbox := (ℚ × ℚ) × (ℚ × ℚ)

namespace Coordinates

/-- Strip the first and last character (`value[i][1:-1]`). -/
def sliceInner (s : String) : String :=
  String.mk (s.toList.drop 1).dropLast

/-- Model of `Coordinates.parse`: requires a two-element list value; each element
is sliced with `[1:-1]`, split on `,` into exactly two parts, and both
parts parsed as floats.  Any failure (a `None` element, a wrong split
count, an unparsable float — all of which raise in the source) yields
`none`. -/
def parse : ConfigValue → Option Bbox
  | .list [some a, some b] =>
    match splitOnChar ',' (sliceInner a).toList, splitOnChar ',' (sliceInner b).toList with
    | [lt, ll], [lb, lr] =>
      match parseDecimal (String.mk lt), parseDecimal (String.mk ll),
          parseDecimal (String.mk lb), parseDecimal (String.mk lr) with
      | some vlt, some vll, some vlb, some vlr => some ((vlt, vll), (vlb, vlr))
      | _, _, _, _ => none
    | _, _ => none
  | _ => none

end Coordinates

/-- The key of the `AreaId` config entry. -/
def AreaId_key : String := "DWR_Area_ID"

/-- The key of the `Coordinates` config entry. -/
def Coordinates_key : String := "Coordinates"

/-- The config-driven part of `MapManager.init_from_config`: load the
config text, look up the area-id entry (its value is stored as-is by
`AreaId`) and the coordinates entry (parsed by `Coordinates.parse`);
`none` models a `KeyError` on a missing key or an exception from
`Coordinates.parse`. -/
def init_area_and_coords (text : String) : Option (ConfigValue × Bbox) :=
  match lookupLast (IHeartRadioConfig.load text) AreaId_key,
      lookupLast (IHeartRadioConfig.load text) Coordinates_key with
  | some areaVal, some coordsVal =>
    (Coordinates.parse coordsVal).map fun bb => (areaVal, bb)
  | _, _ => none

/-! ## `src/map_manager.py`: `MapManager` -/

/-- Python `int()` applied to a real number: truncation toward zero. -/
noncomputable def pyInt (x : ℝ) : ℤ :=
  if 0 ≤ x then ⌊x⌋ else ⌈x⌉

namespace MapManager

/-- Constant `MapManager.LAT_MAX`: max latitude of the US map in linear form. -/
noncomputable def LAT_MAX : ℝ := 1.0799224683069641

/-- Constant `MapManager.REF_LAT`: reference latitude in linear form. -/
noncomputable def REF_LAT : ℝ := 0.7380009964270406

/-- The local function `make_linear` of `MapManager.create_map`:
`LAT_MAX - math.asinh(math.tan(math.radians(val)))`. -/
noncomputable def make_linear (val : ℝ) : ℝ :=
  LAT_MAX - Real.arsinh (Real.tan (val * Real.pi / 180))

/-- The crop rectangle computed by `MapManager.create_map` from the
instance's coordinates, in the order passed to `Image.crop`:
`(int(x1), int(y1), int(x2), int(y2))`. -/
noncomputable def create_map_box (lat_top lat_bottom lon_left lon_right : ℝ) :
    ℤ × ℤ × ℤ × ℤ :=
  (pyInt ((lon_left + 130.781250) * 7162 / 39.34135),
   pyInt (make_linear lat_top * 3565 / (LAT_MAX - REF_LAT)),
   pyInt ((lon_right + 130.781250) * 7162 / 39.34135),
   pyInt (make_linear lat_bottom * 3565 / (LAT_MAX - REF_LAT)))

end MapManager

/-- Mutable state of a `MapManager` instance: the four bounding-box edges
and the memoized map image `_map`. -/
structure MapManagerState where
  lat_top : ℝ
  lat_bottom : ℝ
  lon_left : ℝ
  lon_right : ℝ
  _map : Option Img

/-- The filesystem as seen by `MapManager`: the content of the cache file
at `map_cache_file` (`none` when the file does not exist) and the master
map asset at `static_config.main_map_file`. -/
structure MapWorld where
  cacheFile : Option Img
  masterMap : Img

/-- Observable filesystem effects of one `MapManager.map` access. -/
inductive MapEffect where
  | readMaster
  | openCache
  | unlinkCache
  | saveCache
deriving DecidableEq

/-- Result of one access to the `MapManager.map` property: the returned
image, the instance state and filesystem afterwards, and the filesystem
effects performed, in order. -/
structure MapGetResult where
  image : Img
  state : MapManagerState
  world : MapWorld
  effects : List MapEffect

namespace MapManager

/-- The `map` property setter: store the value in `_map`, delete the
cache file if it exists, then save the value to the cache file. -/
def map_set (s : MapManagerState) (w : MapWorld) (value : Img) :
    MapManagerState × MapWorld × List MapEffect :=
  ({ s with _map := some value },
   { w with cacheFile := some value },
   (if w.cacheFile.isSome then [MapEffect.unlinkCache] else []) ++ [MapEffect.saveCache])

/-- Model of `MapManager.create_map`: open the master map, crop it to the box
computed from the instance's coordinates, resize to 900x900 and convert
to RGBA.  The master-map read is the effect. -/
noncomputable def create_map (s : MapManagerState) (w : MapWorld) : Img × List MapEffect :=
  (Img.convert
     (Img.resize
        (Img.crop w.masterMap (create_map_box s.lat_top s.lat_bottom s.lon_left s.lon_right))
        900 900)
     "RGBA",
   [MapEffect.readMaster])

/-- The `map` property getter: return the memoized `_map` if present;
else, if the cache file exists, open it, assign it through the setter and
return its RGBA conversion; else generate via `create_map`, assign it
through the setter and return it. -/
noncomputable def map (s : MapManagerState) (w : MapWorld) : MapGetResult :=
  match s._map with
  | some m => ⟨m, s, w, []⟩
  | none =>
    match w.cacheFile with
    | some cached =>
      let r := map_set s w cached
      ⟨Img.convert cached "RGBA", r.1, r.2.1, MapEffect.openCache :: r.2.2⟩
    | none =>
      let c := create_map s w
      let r := map_set s w c.1
      ⟨c.1, r.1, r.2.1, c.2 ++ r.2.2⟩

end MapManager

/-! ## `src/utils.py` -/

/-- A `datetime.datetime` value, to the fields the timestamp format
uses.  `hour` is the 24-hour clock hour. -/
structure PyDateTime where
  month : Nat
  day : Nat
  year : Nat
  hour : Nat
  minute : Nat
  second : Nat
deriving DecidableEq

/-- Zero-pad a number to two digits (`%m`, `%d`, `%I`, `%M`, `%S`). -/
def pad2 (n : Nat) : String :=
  if n < 10 then "0" ++ toString n else toString n

/-- Zero-pad a year to four digits (`%Y`). -/
def pad4 (n : Nat) : String :=
  if n < 10 then "000" ++ toString n
  else if n < 100 then "00" ++ toString n
  else if n < 1000 then "0" ++ toString n
  else toString n

/-- Model of `time.strftime('%m-%d-%Y_%I-%M-%S_%p')`: the timestamp format used
throughout the project (12-hour clock with AM/PM). -/
def strftimeProject (t : PyDateTime) : String :=
  pad2 t.month ++ "-" ++ pad2 t.day ++ "-" ++ pad4 t.year ++ "_" ++
    pad2 ((t.hour + 11) % 12 + 1) ++ "-" ++ pad2 t.minute ++ "-" ++ pad2 t.second ++ "_" ++
    (if t.hour < 12 then "AM" else "PM")

/-- The loaded `utils` module.  The signature
`def timestamp(time: datetime = datetime.now())` evaluates its default
argument expression once, when the module is imported; the resulting
`datetime` value is stored with the function object and reused by every
later call that passes no argument.  The module state therefore carries
that stored default. -/
structure UtilsModule where
  timestampDefault : PyDateTime

/-- Importing `utils` at wall-clock time `now`: the default argument
`datetime.now()` is evaluated at that moment. -/
def importUtils (now : PyDateTime) : UtilsModule :=
  ⟨now⟩

/-- Model of `utils.timestamp(...)` called when the wall clock reads `nowAtCall`,
with `arg = none` for a call that passes no argument.  The call-time
clock does not enter: a no-argument call formats the stored default. -/
def UtilsModule.timestampCall (m : UtilsModule) (nowAtCall : PyDateTime)
    (arg : Option PyDateTime) : String :=
  let _ := nowAtCall
  strftimeProject (arg.getD m.timestampDefault)

/-! ## `src/radar_map.py` -/

namespace DopplerRadarManager

/-- Model of `DopplerRadarManager.timestamp_image`: draw `timestamp()` (a
no-argument call) onto the image in the bottom-right corner. -/
def timestamp_image (utils : UtilsModule) (now : PyDateTime) (image : Img) : Img :=
  Img.stamped image (utils.timestampCall now none)

/-- Model of `DopplerRadarManager.overlay_image`: resize the overlay to 900x900,
convert to RGBA, alpha-composite over the map image. -/
def overlay_image (radar_overlay : Img) (map_image : Img) : Img :=
  Img.composite map_image (Img.convert (Img.resize radar_overlay 900 900) "RGBA")

end DopplerRadarManager

/-- Mutable state of a `DopplerRadarManager`: the wrapped `MapManager`
state, the current overlay, and the memoized composed radar map. -/
structure DopplerRadarManagerState where
  mapState : MapManagerState
  overlay : Option Img
  _radar_map : Option Img

/-- Result of one access to the `radar_map` property: the returned image
(`none` models the attribute error raised when no overlay is present),
the state and filesystem afterwards, and the map-cache effects. -/
structure RadarGetResult where
  result : Option Img
  state : DopplerRadarManagerState
  world : MapWorld
  effects : List MapEffect

namespace DopplerRadarManager

/-- Model of `DopplerRadarManager.has_overlay`. -/
def has_overlay (s : DopplerRadarManagerState) : Bool :=
  s.overlay.isSome

/-- Model of `DopplerRadarManager.update_overlay`: replace the overlay attribute
(nothing else is touched). -/
def update_overlay (s : DopplerRadarManagerState) (overlay : Img) :
    DopplerRadarManagerState :=
  { s with overlay := some overlay }

/-- The `radar_map` property getter: return the memoized `_radar_map` if
present; else compose the current overlay over `map_manager.map`,
timestamp the composition, memoize it through the setter and return it.
Accessing `map_manager.map` happens before the overlay is used, so its
effects occur even when the overlay is missing and the compose call
raises. -/
noncomputable def radar_map (s : DopplerRadarManagerState) (w : MapWorld)
    (utils : UtilsModule) (now : PyDateTime) : RadarGetResult :=
  match s._radar_map with
  | some m => ⟨some m, s, w, []⟩
  | none =>
    let g := MapManager.map s.mapState w
    match s.overlay with
    | none => ⟨none, { s with mapState := g.state }, g.world, g.effects⟩
    | some ov =>
      let composed := timestamp_image utils now (overlay_image ov g.image)
      ⟨some composed,
       { s with mapState := g.state, _radar_map := some composed },
       g.world, g.effects⟩

end DopplerRadarManager

/-! ## Claims about `src/traffic.py` -/

/-- Image of the concrete tile used for the claims. -/
def c8_img : Img := Img.file "tile" "RGBA"

/-- The concrete tile `TMT_foo_2_3_bar.png` of the spec's scenario. -/
def c8_tile : TrafficTile := ⟨"TMT_foo_2_3_bar.png", c8_img⟩

/-- Claim C8: the tile filename `TMT_foo_2_3_bar.png` parses to the
zero-indexed slot coordinates `(x = 2, y = 1)`, and `add_tile` records it
in slot `2 + 1 * 3 = 5` and pastes its image onto the mosaic canvas at
pixel offset `(400, 200)`. -/
theorem tile_2_3_concrete :
    TrafficTile.xy_coordinates "TMT_foo_2_3_bar.png" = some (2, 1) ∧
    TrafficMapManager.add_tile TrafficMapManager.init c8_tile =
      some { _traffic_map := Img.paste (Img.new "RGBA" 600 600) c8_img (400, 200),
             _tiles := (List.replicate 9 (none : Option TrafficTile)).set 5 (some c8_tile) } := by
  constructor
  · rfl
  · rfl

/-- One tile per grid position, named with the 1-indexed `_row_col_`
pattern. -/
def gridTile (r c : Nat) : TrafficTile :=
  ⟨"TMT_" ++ toString r ++ "_" ++ toString c ++ "_.png", c8_img⟩

/-- Nine tiles covering all nine slots. -/
def nineTiles : List TrafficTile :=
  [(1, 1), (1, 2), (1, 3), (2, 1), (2, 2), (2, 3), (3, 1), (3, 2), (3, 3)].map
    fun p => gridTile p.1 p.2

/-- The manager state after adding the nine tiles in order. -/
def afterNineTiles : Option TrafficMapManager :=
  nineTiles.foldl (fun acc t => acc.bind fun s => TrafficMapManager.add_tile s t)
    (some TrafficMapManager.init)

/-- Claim C2, counterexample: after the `add_tile` call that fills the
ninth and last slot, the tracking table is not reset to all-unfilled —
all nine slots remain filled. -/
theorem tiles_not_reset_after_ninth :
    (afterNineTiles.map fun s => s._tiles.all fun o => o.isNone) = some false ∧
    afterNineTiles.map TrafficMapManager.filledCount = some 9 := by
  constructor
  · rfl
  · rfl

/-- Claim C2, amended: `add_tile` never clears a slot of the tracking
table; every slot filled beforehand is still filled afterwards (in
particular the table is never reset to all-unfilled when the ninth slot
becomes filled). -/
theorem add_tile_filled_monotone (s s' : TrafficMapManager) (t : TrafficTile) (i : Nat)
    (h : TrafficMapManager.add_tile s t = some s') (t0 : TrafficTile)
    (hf : s._tiles[i]? = some (some t0)) :
    ∃ t1, s'._tiles[i]? = some (some t1) := by
  unfold TrafficMapManager.add_tile TrafficMapManager._paste_tile at h
  rcases hxy : TrafficTile.xy_coordinates t.filename with _ | ⟨x, y⟩
  · rw [hxy] at h
    cases h
  · rw [hxy] at h
    simp only [Option.some.injEq] at h
    subst h
    by_cases hi : x + y * 3 = i
    · subst hi
      rw [List.getElem?_set_self']
      rw [hf]
      exact ⟨t, rfl⟩
    · rw [List.getElem?_set_ne hi]
      exact ⟨t0, hf⟩

/-- State with slot 0 already filled, for the witness. -/
def slot0Filled : TrafficMapManager :=
  { _traffic_map := Img.new "RGBA" 600 600,
    _tiles := (List.replicate 9 (none : Option TrafficTile)).set 0 (some (gridTile 1 1)) }

/-- The state after adding a slot-5 tile to `slot0Filled`. -/
def slot0FilledThen : TrafficMapManager :=
  (TrafficMapManager.add_tile slot0Filled c8_tile).getD TrafficMapManager.init

theorem add_tile_filled_monotone_witness :
    ∃ t1, slot0FilledThen._tiles[0]? = some (some t1) :=
  add_tile_filled_monotone slot0Filled slot0FilledThen c8_tile 0 (by rfl)
    (gridTile 1 1) (by rfl)

/-- The batch of one malformed and one valid tile file of the spec's
malformed-tile scenario, in listing order. -/
def malformedBatch : List (String × Img) :=
  [("TMT_nomatch.png", Img.file "TMT_nomatch.png" "P"),
   ("TMT_foo_2_3_bar.png", Img.file "TMT_foo_2_3_bar.png" "P")]

/-- Claim C5, counterexample: on a poll whose listing starts with the
malformed tile file `TMT_nomatch.png`, `find_and_add_tiles` propagates
the exception (`none`), leaves the manager unchanged — the valid tile
`TMT_foo_2_3_bar.png` later in the same poll is never added — and
deletes no file, so the malformed file is neither skipped nor deleted. -/
theorem malformed_tile_aborts_batch :
    TrafficMapManager.find_and_add_tiles TrafficMapManager.init malformedBatch =
      (none, TrafficMapManager.init, []) ∧
    (TrafficMapManager.find_and_add_tiles TrafficMapManager.init malformedBatch).2.1._tiles.getD
        5 none = none := by
  constructor
  · rfl
  · rfl

/-- Claim C5, amended: when the per-file loop of `find_and_add_tiles`
reaches a file whose name lacks the `_row_col_` pattern, the exception
from `add_tile` aborts the loop at that point: the manager keeps the
state it had before that file, no file from that point on is deleted
(including the malformed one), and the remaining files of the poll are
not processed. -/
theorem process_files_stops_at_malformed (s : TrafficMapManager) (name : String) (raw : Img)
    (rest : List (String × Img)) (h : TrafficTile.xy_coordinates name = none) :
    TrafficMapManager.processFiles s ((name, raw) :: rest) = (s, [], true) := by
  unfold TrafficMapManager.processFiles TrafficMapManager.add_tile
  simp [TrafficTile.load_file, h]

theorem process_files_stops_at_malformed_witness :
    TrafficMapManager.processFiles TrafficMapManager.init malformedBatch =
      (TrafficMapManager.init, [], true) :=
  process_files_stops_at_malformed TrafficMapManager.init "TMT_nomatch.png"
    (Img.file "TMT_nomatch.png" "P") [("TMT_foo_2_3_bar.png", Img.file "TMT_foo_2_3_bar.png" "P")]
    (by rfl)

/-! ## Claims about the config parsing of `src/map_manager.py` -/

/-- The config text of the claimed concrete scenario: quote characters
inside the parentheses of each coordinate group. -/
def claimedConfigText : String :=
  "DWR_Area_ID=\"ABC123\"\nCoordinates=(\"40.0,-75.0\");(\"39.0,-74.0\")\n"

/-- The same scenario in the form the code accepts: each coordinate group
is a parenthesized pair wrapped in quotes. -/
def quotedParenConfigText : String :=
  "DWR_Area_ID=\"ABC123\"\nCoordinates=\"(40.0,-75.0)\";\"(39.0,-74.0)\"\n"

/-- Claim C3, counterexample: on the claimed config text the coordinate
halves `("40.0,-75.0")` and `("39.0,-74.0")` start and end with
parentheses, not quotes, so `strip_quotes` yields no string for either,
`Coordinates.parse` fails, and the area-id/coordinates construction does
not succeed — even though the area-id line alone does parse to
`ABC123`. -/
theorem claimed_config_text_fails :
    init_area_and_coords claimedConfigText = none ∧
    lookupLast (IHeartRadioConfig.load claimedConfigText) AreaId_key =
      some (ConfigValue.str (some "ABC123")) ∧
    lookupLast (IHeartRadioConfig.load claimedConfigText) Coordinates_key =
      some (ConfigValue.list [none, none]) := by
  refine ⟨?_, ?_, ?_⟩ <;> rfl

/-- Claim C3, amended: with the quotes outside the parentheses —
`Coordinates="(40.0,-75.0)";"(39.0,-74.0)"` — parsing the config text
via `IHeartRadioConfig.load` followed by `AreaId` and `Coordinates`
construction succeeds and yields area id `ABC123` and the bounding box
`lat_top = 40.0`, `lon_left = -75.0`, `lat_bottom = 39.0`,
`lon_right = -74.0`. -/
theorem quoted_paren_config_parses :
    init_area_and_coords quotedParenConfigText =
      some (ConfigValue.str (some "ABC123"), ((40, -75), (39, -74))) := by
  have h : init_area_and_coords quotedParenConfigText =
      some (ConfigValue.str (some "ABC123"),
        ((((40 : ℕ) : ℚ) + ((0 : ℕ) : ℚ) / (10 : ℚ) ^ 1,
          -(((75 : ℕ) : ℚ) + ((0 : ℕ) : ℚ) / (10 : ℚ) ^ 1)),
         (((39 : ℕ) : ℚ) + ((0 : ℕ) : ℚ) / (10 : ℚ) ^ 1,
          -(((74 : ℕ) : ℚ) + ((0 : ℕ) : ℚ) / (10 : ℚ) ^ 1)))) := by rfl
  rw [h]
  norm_num

/-! ## Claims about the projection and `MapManager` of `src/map_manager.py` -/

/-- The spec's x-coordinate formula: `x = (lon + 130.78125) * 7162 / 39.34135`. -/
noncomputable def spec_x (lon : ℝ) : ℝ :=
  (lon + 130.78125) * 7162 / 39.34135

/-- The spec's linearized latitude:
`lin(lat) = LAT_MAX - asinh(tan(radians(lat)))` with
`LAT_MAX = 1.0799224683069641`. -/
noncomputable def spec_lin (lat : ℝ) : ℝ :=
  1.0799224683069641 - Real.arsinh (Real.tan (lat * Real.pi / 180))

/-- The spec's y-coordinate formula:
`y = lin(lat) * 3565 / (LAT_MAX - REF_LAT)` with
`REF_LAT = 0.7380009964270406`. -/
noncomputable def spec_y (lat : ℝ) : ℝ :=
  spec_lin lat * 3565 / (1.0799224683069641 - 0.7380009964270406)

/-- Claim C4: for every bounding box, `create_map` computes the crop
rectangle `(x1, y1, x2, y2)` with `x = (lon + 130.78125) * 7162 / 39.34135`
for the two longitudes and `y = lin(lat) * 3565 / (LAT_MAX - REF_LAT)` for
the two latitudes, each of the four coordinates truncated (toward zero,
not rounded) to an integer. -/
theorem create_map_box_matches_spec (lat_top lat_bottom lon_left lon_right : ℝ) :
    MapManager.create_map_box lat_top lat_bottom lon_left lon_right =
      (pyInt (spec_x lon_left), pyInt (spec_y lat_top),
       pyInt (spec_x lon_right), pyInt (spec_y lat_bottom)) := by
  unfold MapManager.create_map_box MapManager.make_linear MapManager.LAT_MAX
    MapManager.REF_LAT spec_x spec_y spec_lin
  norm_num

/-- Claim C7: accessing the `map` getter twice on the same instance with
the filesystem untouched in between performs no filesystem effect on the
second access (in particular it never opens or re-reads the master map
asset): the second access is satisfied from the memoized in-memory image
and changes nothing. -/
theorem second_map_access_is_pure (s : MapManagerState) (w : MapWorld) :
    (MapManager.map (MapManager.map s w).state (MapManager.map s w).world).effects = [] ∧
    (MapManager.map (MapManager.map s w).state (MapManager.map s w).world).state =
      (MapManager.map s w).state ∧
    (MapManager.map (MapManager.map s w).state (MapManager.map s w).world).world =
      (MapManager.map s w).world ∧
    (MapManager.map s w).state._map =
      some (MapManager.map (MapManager.map s w).state (MapManager.map s w).world).image := by
  rcases s with ⟨lt, lb, ll, lr, m⟩
  rcases w with ⟨cf, mm⟩
  cases m with
  | some m0 => exact ⟨rfl, rfl, rfl, rfl⟩
  | none =>
    cases cf with
    | some cached => exact ⟨rfl, rfl, rfl, rfl⟩
    | none => exact ⟨rfl, rfl, rfl, rfl⟩

/-- State of a fresh `MapManager` with nothing memoized. -/
def freshMapState : MapManagerState := ⟨0, 0, 0, 0, none⟩

/-- Filesystem on which the cache file for the area already exists. -/
def cachePresentWorld : MapWorld :=
  ⟨some (Img.file "map_cached.png" "P"), Img.file "USMap.png" "RGB"⟩

/-- Claim C6, counterexample: an access to the `map` getter that is
satisfied by loading the existing on-disk cache file nevertheless writes
to the cache file — it opens the cache file, and then (through the `map`
setter) deletes it and saves it again. -/
theorem cache_load_rewrites_cache_file :
    (MapManager.map freshMapState cachePresentWorld).effects =
      [MapEffect.openCache, MapEffect.unlinkCache, MapEffect.saveCache] ∧
    MapEffect.saveCache ∈ (MapManager.map freshMapState cachePresentWorld).effects := by
  constructor
  · rfl
  · decide

/-- Claim C6, amended: a disk write of the cache file occurs on every
`map` getter access that is not satisfied by the in-memory memoized
image — both the generation path and the cache-file loading path assign
through the `map` setter, which deletes any existing cache file and saves
anew; only an access satisfied by the memoized image performs no
filesystem effect. -/
theorem map_write_iff_not_memoized (s : MapManagerState) (w : MapWorld) :
    (s._map = none → MapEffect.saveCache ∈ (MapManager.map s w).effects) ∧
    (∀ m, s._map = some m → (MapManager.map s w).effects = []) := by
  rcases s with ⟨lt, lb, ll, lr, m⟩
  rcases w with ⟨cf, mm⟩
  cases m with
  | some m0 =>
    exact ⟨fun h => Option.noConfusion h, fun m1 _ => rfl⟩
  | none =>
    refine ⟨fun _ => ?_, fun m1 h => Option.noConfusion h⟩
    cases cf with
    | some cached =>
      show MapEffect.saveCache ∈
        [MapEffect.openCache, MapEffect.unlinkCache, MapEffect.saveCache]
      simp
    | none =>
      show MapEffect.saveCache ∈ [MapEffect.readMaster, MapEffect.saveCache]
      simp

theorem map_write_iff_not_memoized_witness :
    MapEffect.saveCache ∈ (MapManager.map freshMapState cachePresentWorld).effects :=
  (map_write_iff_not_memoized freshMapState cachePresentWorld).1 rfl

/-- Claim C10: when nothing is memoized and the cache file exists, the
first `map` access returns the cache image converted to RGBA but
memoizes the unconverted image, so the second access returns the
unconverted image; whenever the cached file's mode is not RGBA, the two
accesses return images of different modes. -/
theorem cache_load_mode_mismatch (s : MapManagerState) (w : MapWorld) (img : Img)
    (h1 : s._map = none) (h2 : w.cacheFile = some img) :
    (MapManager.map s w).image = Img.convert img "RGBA" ∧
    (MapManager.map s w).state._map = some img ∧
    (MapManager.map (MapManager.map s w).state (MapManager.map s w).world).image = img ∧
    (MapManager.map s w).image.mode = "RGBA" ∧
    (img.mode ≠ "RGBA" →
      (MapManager.map (MapManager.map s w).state (MapManager.map s w).world).image.mode ≠
        (MapManager.map s w).image.mode) := by
  rcases s with ⟨lt, lb, ll, lr, m⟩
  rcases w with ⟨cf, mm⟩
  cases h1
  cases h2
  exact ⟨rfl, rfl, rfl, rfl, fun hm => hm⟩

theorem cache_load_mode_mismatch_witness :
    (MapManager.map freshMapState cachePresentWorld).image =
      Img.convert (Img.file "map_cached.png" "P") "RGBA" ∧
    (MapManager.map
        (MapManager.map freshMapState cachePresentWorld).state
        (MapManager.map freshMapState cachePresentWorld).world).image.mode ≠
      (MapManager.map freshMapState cachePresentWorld).image.mode :=
  ⟨(cache_load_mode_mismatch freshMapState cachePresentWorld
      (Img.file "map_cached.png" "P") rfl rfl).1,
   (cache_load_mode_mismatch freshMapState cachePresentWorld
      (Img.file "map_cached.png" "P") rfl rfl).2.2.2.2 (by decide)⟩

/-! ## Claim about `src/utils.py` -/

/-- Claim C9: `utils.timestamp()` called with no argument always returns
the same string within one process run — the formatted module-import
time, independent of the wall clock at call time — so any two images
timestamped by `timestamp_image` in the same session carry an identical
timestamp string. -/
theorem timestamp_constant_per_session (loadTime n1 n2 : PyDateTime) (i1 i2 : Img) :
    (importUtils loadTime).timestampCall n1 none =
      (importUtils loadTime).timestampCall n2 none ∧
    (importUtils loadTime).timestampCall n1 none = strftimeProject loadTime ∧
    (DopplerRadarManager.timestamp_image (importUtils loadTime) n1 i1).drawnText =
      (DopplerRadarManager.timestamp_image (importUtils loadTime) n2 i2).drawnText := by
  exact ⟨rfl, rfl, rfl⟩

/-! ## Claim about `src/radar_map.py` -/

/-- The base map image of the radar scenario. -/
def c1_base : Img := Img.file "basemap" "RGBA"

/-- First radar overlay received. -/
def c1_overlayA : Img := Img.file "overlayA" "RGBA"

/-- Second radar overlay received. -/
def c1_overlayB : Img := Img.file "overlayB" "RGBA"

/-- The `MapManager` state with the base map memoized. -/
def c1_mapState : MapManagerState := ⟨0, 0, 0, 0, some c1_base⟩

/-- Filesystem for the radar scenario. -/
def c1_world : MapWorld := ⟨none, Img.file "USMap.png" "RGB"⟩

/-- The `utils` module as imported at some load time. -/
def c1_utils : UtilsModule := importUtils ⟨1, 2, 2026, 13, 4, 5⟩

/-- Wall-clock time of the radar accesses. -/
def c1_now : PyDateTime := ⟨1, 2, 2026, 13, 5, 6⟩

/-- Radar manager holding overlay A, nothing composed yet. -/
def c1_state0 : DopplerRadarManagerState := ⟨c1_mapState, some c1_overlayA, none⟩

/-- First read of the `radar_map` property (composes and memoizes). -/
noncomputable def c1_first : RadarGetResult :=
  DopplerRadarManager.radar_map c1_state0 c1_world c1_utils c1_now

/-- Read of the `radar_map` property after `update_overlay` replaced the
overlay with B. -/
noncomputable def c1_second : RadarGetResult :=
  DopplerRadarManager.radar_map
    (DopplerRadarManager.update_overlay c1_first.state c1_overlayB)
    c1_first.world c1_utils c1_now

/-- Claim C1: `update_overlay` does not invalidate the memoized
`_radar_map` — after `update_overlay(A)`, a read of `radar_map`, then
`update_overlay(B)`, the next read of `radar_map` returns the previously
memoized composite unchanged: it still contains A's content and does not
contain B's content. -/
theorem stale_radar_map_after_update_overlay :
    c1_second.result = c1_first.result ∧
    c1_first.result = some (DopplerRadarManager.timestamp_image c1_utils c1_now
      (DopplerRadarManager.overlay_image c1_overlayA c1_base)) ∧
    c1_second.result.map (Img.contains c1_overlayA) = some true ∧
    c1_second.result.map (Img.contains c1_overlayB) = some false ∧
    (DopplerRadarManager.update_overlay c1_first.state c1_overlayB)._radar_map =
      c1_first.state._radar_map := by
  exact ⟨rfl, rfl, rfl, rfl, rfl⟩

end Hdfm
